import Mathlib

/-!
Shallow embedding of `src/pv_calculator.py` (PV mounting-structure load
calculation and steel-section selection tool).

Modelling conventions:
* User-supplied decimal inputs (`ParameterRecord` fields) are rationals;
  integer counts are integers.
* Derived float computations are real numbers (`ℝ`); `math.sin`/`math.cos`
  are `Real.sin`/`Real.cos`, `math.radians x` is `x * π / 180`.
* Python dictionaries with fixed string keys become chains of string tests
  (`CITY_LOAD_DATA`, `WIND_SHAPE_COEFF`) or an association list preserving
  insertion order (`STEEL_SECTIONS`), since catalog iteration order matters.
* `props[4]` becomes `List.get? props 4`; an `IndexError` escaping to the
  enclosing `try` is modelled with `Except Unit`.
-/

namespace PV

open Real

/-- ParameterRecord: the dictionary returned by `get_user_input`. -/
structure Params where
  location : String
  roof_type : String
  tilt_angle : ℚ
  mounting_height : ℚ
  pv_length : ℚ
  pv_width : ℚ
  pv_weight : ℚ
  pv_per_row : ℤ
  num_rows : ℤ
  column_spacing : ℚ
  span_length : ℚ

/-- CITY_LOAD_DATA lookup with the `.get(location, CITY_LOAD_DATA["默认"])`
fallback: returns the (wind, snow) basic-pressure pair in kN/m². -/
def CITY_LOAD_DATA (loc : String) : ℚ × ℚ :=
  if loc = "北京" then (0.45, 0.40)
  else if loc = "上海" then (0.55, 0.20)
  else if loc = "广州" then (0.50, 0.00)
  else if loc = "哈尔滨" then (0.55, 0.45)
  else if loc = "乌鲁木齐" then (0.60, 0.80)
  else if loc = "拉萨" then (0.30, 0.15)
  else (0.40, 0.35)

/-- WIND_SHAPE_COEFF lookup with the `.get(roof_type, 1.0)` fallback. -/
def WIND_SHAPE_COEFF (roof_type : String) : ℚ :=
  if roof_type = "单坡" then 1.3
  else if roof_type = "双坡" then 0.9
  else if roof_type = "平顶" then 1.0
  else 1.0

/-- STEEL_SECTIONS: the catalog in Python-dict insertion (= iteration) order.
C-shape entries carry 6 properties (area cm² at index 4); square-tube
entries carry only 4 properties (area cm² at index 2). -/
def STEEL_SECTIONS : List (String × List ℝ) :=
  [("C80x40x15x2.0", [80, 40, 15, 2.0, 4.24, 43.92]),
   ("C100x50x20x2.5", [100, 50, 20, 2.5, 6.78, 112.12]),
   ("C120x50x20x2.5", [120, 50, 20, 2.5, 7.18, 198.60]),
   ("C140x50x20x3.0", [140, 50, 20, 3.0, 8.64, 322.55]),
   ("□60x60x2.5", [60, 2.5, 5.67, 34.45]),
   ("□80x80x3.0", [80, 3.0, 8.76, 73.49]),
   ("□100x100x3.5", [100, 3.5, 13.20, 178.08]),
   ("□120x120x4.0", [120, 4.0, 18.18, 346.36])]

/-- True cross-sectional area (cm²) of a catalog property list: the
second-to-last element (index 4 of a 6-entry C-shape list, index 2 of a
4-entry square-tube list), per the source comments. -/
def sectionAreaCm2 (props : List ℝ) : ℝ :=
  (props.get? (props.length - 2)).getD 0

/-- Height-pressure coefficient μz of `calculate_wind_load`
(the if/elif chain on `mounting_height`). -/
def mu_z (height : ℚ) : ℚ :=
  if height ≤ 5 then 1.0
  else if height ≤ 10 then 1.0
  else if height ≤ 15 then 1.14
  else 1.25

/-- Snow distribution coefficient μr of `calculate_snow_load`
(the if/elif chain on `tilt_angle`). -/
def mu_r (tilt : ℚ) : ℚ :=
  if tilt ≤ 25 then 1.0
  else if tilt ≤ 50 then 1.0 - (tilt - 25) / 25
  else 0

/-- calculate_wind_load: total wind load (kN), absolute value taken. -/
noncomputable def calculate_wind_load (p : Params) : ℝ :=
  let W0 : ℝ := ((CITY_LOAD_DATA p.location).1 : ℝ)
  let μz : ℝ := (mu_z p.mounting_height : ℝ)
  let μs : ℝ := (WIND_SHAPE_COEFF p.roof_type : ℝ)
  let projected_area : ℝ :=
    Real.sin ((p.tilt_angle : ℝ) * π / 180) * (p.pv_length : ℝ) * (p.pv_width : ℝ)
  |1.0 * μs * μz * W0 * projected_area * (p.pv_per_row : ℝ) * (p.num_rows : ℝ)|

/-- calculate_snow_load: total snow load (kN). -/
noncomputable def calculate_snow_load (p : Params) : ℝ :=
  let S0 : ℝ := ((CITY_LOAD_DATA p.location).2 : ℝ)
  let μr : ℝ := (mu_r p.tilt_angle : ℝ)
  let area : ℝ :=
    (p.pv_length : ℝ) * (p.pv_width : ℝ) * Real.cos ((p.tilt_angle : ℝ) * π / 180)
  μr * S0 * area * (p.pv_per_row : ℝ) * (p.num_rows : ℝ)

/-- calculate_dead_load: dead load (kN) from panel mass plus a 30%
structure-self-weight allowance, converted at 0.0098 kN/kg. -/
def calculate_dead_load (p : Params) : ℚ :=
  let pv_total_weight := p.pv_weight * (p.pv_per_row : ℚ) * (p.num_rows : ℚ)
  let support_weight := pv_total_weight * 0.3
  (pv_total_weight + support_weight) * 0.0098

/-- calculate_combined_load: returns
(design_load, combo1, combo2, combo3) exactly as the Python tuple. -/
noncomputable def calculate_combined_load (dead_load wind_load snow_load : ℝ) :
    ℝ × ℝ × ℝ × ℝ :=
  let combo1 := 1.2 * dead_load + 1.4 * wind_load
  let combo2 := 1.2 * dead_load + 1.4 * snow_load
  let combo3 := 1.2 * dead_load + 0.9 * 1.4 * (wind_load + snow_load)
  let design_load := max combo1 (max combo2 combo3)
  (design_load, combo1, combo2, combo3)

/-- `columns_per_row * num_rows` as computed in `select_column_section`,
`calculate_steel_usage` and `display_results`
(`math.ceil(span_length / column_spacing) * num_rows`). -/
def total_columns (p : Params) : ℤ :=
  ⌈p.span_length / p.column_spacing⌉ * p.num_rows

/-- required_area_cm2 of `select_column_section`: the minimum section area
(cm²) from the axial-capacity check, including the `total_columns == 0`
guard. -/
noncomputable def requiredAreaCm2 (design_load : ℝ) (p : Params) : ℝ :=
  let tc : ℤ := total_columns p
  let tc' : ℤ := if tc = 0 then 1 else tc
  design_load / (tc' : ℝ) * 1000 / ((235 : ℝ) / 1.5) / 100

/-- The first-fit scan of `select_column_section`: first section whose
`props[4]` is ≥ the required area. `.error ()` models an `IndexError`
raised by `props[4]` on a too-short property list; `.ok none` models the
loop ending with `selected_section` still `None`. -/
noncomputable def scanSections (required_area_cm2 : ℝ) :
    List (String × List ℝ) → Except Unit (Option String)
  | [] => .ok none
  | (name, props) :: rest =>
    match props.get? 4 with
    | none => .error ()
    | some a => if required_area_cm2 ≤ a then .ok (some name)
                else scanSections required_area_cm2 rest

/-- Accumulator loop of Python `max(keys, key=lambda k: STEEL_SECTIONS[k][4])`:
keeps the first key attaining the maximal `props[4]`, raising
(`.error ()`) when some `props[4]` does not exist. -/
noncomputable def maxAreaLoop (best_a : ℝ) (best : String) :
    List (String × List ℝ) → Except Unit String
  | [] => .ok best
  | (name, props) :: rest =>
    match props.get? 4 with
    | none => .error ()
    | some a => if best_a < a then maxAreaLoop a name rest
                else maxAreaLoop best_a best rest

/-- Python `max(STEEL_SECTIONS.keys(), key=lambda k: STEEL_SECTIONS[k][4])`
over a catalog list. -/
noncomputable def maxBySectionArea : List (String × List ℝ) → Except Unit String
  | [] => .error ()
  | (name, props) :: rest =>
    match props.get? 4 with
    | none => .error ()
    | some a => maxAreaLoop a name rest

/-- select_column_section: first-fit scan, then max-area fallback, with the
whole body wrapped in `try/except` returning "□100x100x3.5" on any
exception. -/
noncomputable def select_column_section (design_load : ℝ) (p : Params) : String :=
  match scanSections (requiredAreaCm2 design_load p) STEEL_SECTIONS with
  | .error _ => "□100x100x3.5"
  | .ok (some s) => s
  | .ok none =>
    match maxBySectionArea STEEL_SECTIONS with
    | .error _ => "□100x100x3.5"
    | .ok s => s

/-- calculate_steel_usage: returns
(total_steel, column_weight, beam_weight, connection_weight) in kg; any
exception (missing key, or `section_props[4]` out of range) yields
(0, 0, 0, 0). -/
noncomputable def calculate_steel_usage (p : Params) (column_section : String) :
    ℝ × ℝ × ℝ × ℝ :=
  match (STEEL_SECTIONS.lookup column_section).bind (fun props => props.get? 4) with
  | none => (0, 0, 0, 0)
  | some section_area_cm2 =>
    let section_area_m2 := section_area_cm2 / 10000
    let column_length : ℝ := (p.mounting_height : ℝ) * 1.2
    let column_weight := section_area_m2 * column_length * 7850 * (total_columns p : ℝ)
    let beam_weight := column_weight * 0.6
    let connection_weight := (column_weight + beam_weight) * 0.15
    (column_weight + beam_weight + connection_weight,
     column_weight, beam_weight, connection_weight)

/-- The default ParameterRecord: every prompt answered with its default. -/
def defaultParams : Params :=
  { location := "默认"
    roof_type := "平顶"
    tilt_angle := 30
    mounting_height := 3
    pv_length := 1.7
    pv_width := 1
    pv_weight := 20
    pv_per_row := 10
    num_rows := 20
    column_spacing := 2.5
    span_length := 10 }

/-! ### Helper lemmas -/

/-- Both city base pressures are non-negative, for every location string. -/
theorem CITY_LOAD_DATA_nonneg (loc : String) :
    0 ≤ (CITY_LOAD_DATA loc).1 ∧ 0 ≤ (CITY_LOAD_DATA loc).2 := by
  unfold CITY_LOAD_DATA
  split_ifs <;> norm_num

/-- The snow distribution coefficient is never negative. -/
theorem mu_r_nonneg (tilt : ℚ) : 0 ≤ mu_r tilt := by
  unfold mu_r
  split_ifs with h1 h2
  · norm_num
  · push_neg at h1
    have h3 : (tilt - 25) / 25 ≤ 1 := by
      rw [div_le_one (by norm_num)]
      linarith
    linarith
  · norm_num

/-- Two-sided rational bounds on √3, used to settle the default scenario. -/
theorem sqrt3_bounds : 1.732 ≤ Real.sqrt 3 ∧ Real.sqrt 3 ≤ 1.7321 := by
  constructor
  · rw [show (1.732 : ℝ) = Real.sqrt (1.732 ^ 2) by rw [Real.sqrt_sq (by norm_num)]]
    exact Real.sqrt_le_sqrt (by norm_num)
  · rw [show (1.7321 : ℝ) = Real.sqrt (1.7321 ^ 2) by rw [Real.sqrt_sq (by norm_num)]]
    exact Real.sqrt_le_sqrt (by norm_num)

/-! ### Claims -/

/-- Claim C1, counterexample: the catalog is NOT ordered by ascending
cross-sectional area; consecutive entries C140x50x20x3.0 (8.64 cm²) and
□60x60x2.5 (5.67 cm²) are out of order. -/
theorem C1_counterexample :
    ¬ List.Chain' (· ≤ ·) (STEEL_SECTIONS.map (fun e => sectionAreaCm2 e.2)) := by
  simp [STEEL_SECTIONS, sectionAreaCm2, List.chain'_cons]
  norm_num

/-- Claim C1, amended: the catalog is ordered by ascending area within the
C-shape prefix (first four entries) and within the square-tube suffix
(last four entries), but not overall: the fifth entry's area (5.67 cm²)
is smaller than the fourth entry's (8.64 cm²). -/
theorem C1_amended :
    List.Chain' (· ≤ ·) ((STEEL_SECTIONS.take 4).map (fun e => sectionAreaCm2 e.2)) ∧
    List.Chain' (· ≤ ·) ((STEEL_SECTIONS.drop 4).map (fun e => sectionAreaCm2 e.2)) ∧
    sectionAreaCm2 (((STEEL_SECTIONS.get? 4).getD ("", [])).2) <
      sectionAreaCm2 (((STEEL_SECTIONS.get? 3).getD ("", [])).2) := by
  refine ⟨?_, ?_, ?_⟩ <;> simp [STEEL_SECTIONS, sectionAreaCm2, List.chain'_cons] <;> norm_num

/-- Claim C4: the snow distribution coefficient μr is 1 for tilt ≤ 25°,
1 − (tilt − 25)/25 for 25° < tilt ≤ 50°, and 0 for tilt > 50°; in
particular μr(0)=1, μr(25)=1, μr(37.5)=0.5, μr(50)=0, μr(75)=0. -/
theorem C4_mu_r_piecewise :
    (∀ t : ℚ, t ≤ 25 → mu_r t = 1) ∧
    (∀ t : ℚ, 25 < t → t ≤ 50 → mu_r t = 1 - (t - 25) / 25) ∧
    (∀ t : ℚ, 50 < t → mu_r t = 0) ∧
    mu_r 0 = 1 ∧ mu_r 25 = 1 ∧ mu_r 37.5 = 0.5 ∧ mu_r 50 = 0 ∧ mu_r 75 = 0 := by
  refine ⟨?_, ?_, ?_, ?_, ?_, ?_, ?_, ?_⟩
  · intro t ht
    rw [mu_r, if_pos ht]
    norm_num
  · intro t ht1 ht2
    rw [mu_r, if_neg (by linarith), if_pos ht2]
    norm_num
  · intro t ht
    rw [mu_r, if_neg (by linarith), if_neg (by linarith)]
  all_goals norm_num [mu_r]

/-- Witness for C4 at tilt angles 20°, 30° and 60°. -/
theorem C4_witness :
    mu_r 20 = 1 ∧ mu_r 30 = 1 - (30 - 25) / 25 ∧ mu_r 60 = 0 :=
  ⟨C4_mu_r_piecewise.1 20 (by norm_num),
   C4_mu_r_piecewise.2.1 30 (by norm_num) (by norm_num),
   C4_mu_r_piecewise.2.2.1 60 (by norm_num)⟩

/-- Claim C5: the height-pressure coefficient μz is a step function of
mounting height: 1.0 up to 10 m (in two bands), 1.14 on (10, 15], and
1.25 above 15 m; in particular μz(5)=1, μz(10)=1, μz(10.01)=1.14,
μz(15)=1.14, μz(15.01)=1.25. -/
theorem C5_mu_z_step :
    (∀ x : ℚ, x ≤ 5 → mu_z x = 1) ∧
    (∀ x : ℚ, 5 < x → x ≤ 10 → mu_z x = 1) ∧
    (∀ x : ℚ, 10 < x → x ≤ 15 → mu_z x = 1.14) ∧
    (∀ x : ℚ, 15 < x → mu_z x = 1.25) ∧
    mu_z 5 = 1 ∧ mu_z 10 = 1 ∧ mu_z 10.01 = 1.14 ∧
    mu_z 15 = 1.14 ∧ mu_z 15.01 = 1.25 := by
  refine ⟨?_, ?_, ?_, ?_, ?_, ?_, ?_, ?_, ?_⟩
  · intro x hx
    rw [mu_z, if_pos hx]
    norm_num
  · intro x hx1 hx2
    rw [mu_z, if_neg (by linarith), if_pos hx2]
    norm_num
  · intro x hx1 hx2
    rw [mu_z, if_neg (by linarith), if_neg (by linarith), if_pos hx2]
  · intro x hx
    rw [mu_z, if_neg (by linarith), if_neg (by linarith), if_neg (by linarith)]
  all_goals norm_num [mu_z]

/-- Witness for C5 at heights 3 m, 7 m, 12 m and 20 m. -/
theorem C5_witness :
    mu_z 3 = 1 ∧ mu_z 7 = 1 ∧ mu_z 12 = 1.14 ∧ mu_z 20 = 1.25 :=
  ⟨C5_mu_z_step.1 3 (by norm_num),
   C5_mu_z_step.2.1 7 (by norm_num) (by norm_num),
   C5_mu_z_step.2.2.1 12 (by norm_num) (by norm_num),
   C5_mu_z_step.2.2.2.1 20 (by norm_num)⟩

/-- Claim C6: calculate_combined_load returns combo1 = 1.2·dead + 1.4·wind,
combo2 = 1.2·dead + 1.4·snow, combo3 = 1.2·dead + 0.9·1.4·(wind+snow),
and design_load = max of the three combinations. -/
theorem C6_combined_load_formula (d w s : ℝ) :
    calculate_combined_load d w s =
      (max (1.2 * d + 1.4 * w) (max (1.2 * d + 1.4 * s) (1.2 * d + 0.9 * 1.4 * (w + s))),
       1.2 * d + 1.4 * w,
       1.2 * d + 1.4 * s,
       1.2 * d + 0.9 * 1.4 * (w + s)) := rfl

/-- Claim C7: the design load (first component of calculate_combined_load)
is non-decreasing in each of the dead, wind and snow loads on non-negative
inputs. -/
theorem C7_design_load_monotone (d d' w w' s s' : ℝ)
    (hd0 : 0 ≤ d) (hw0 : 0 ≤ w) (hs0 : 0 ≤ s)
    (hd : d ≤ d') (hw : w ≤ w') (hs : s ≤ s') :
    (calculate_combined_load d w s).1 ≤ (calculate_combined_load d' w' s').1 := by
  unfold calculate_combined_load
  exact max_le_max (by linarith) (max_le_max (by linarith) (by linarith))

/-- Witness for C7: increasing (dead, wind, snow) from (1, 2, 3) to
(2, 3, 4) does not decrease the design load. -/
theorem C7_witness :
    (calculate_combined_load 1 2 3).1 ≤ (calculate_combined_load 2 3 4).1 :=
  C7_design_load_monotone 1 2 2 3 3 4 (by norm_num) (by norm_num) (by norm_num)
    (by norm_num) (by norm_num) (by norm_num)

/-- Evaluation of the first-fit scan on the concrete catalog: the four
C-shape entries are tested in order, and reaching the first square-tube
entry raises (its property list has no index 4). -/
theorem scanSections_eval (req : ℝ) :
    scanSections req STEEL_SECTIONS =
      if req ≤ 4.24 then .ok (some "C80x40x15x2.0")
      else if req ≤ 6.78 then .ok (some "C100x50x20x2.5")
      else if req ≤ 7.18 then .ok (some "C120x50x20x2.5")
      else if req ≤ 8.64 then .ok (some "C140x50x20x3.0")
      else .error () := rfl

/-- select_column_section can only produce one of the four C-shape names or
the exception-path default. -/
theorem select_column_section_cases (design_load : ℝ) (p : Params) :
    select_column_section design_load p = "C80x40x15x2.0" ∨
    select_column_section design_load p = "C100x50x20x2.5" ∨
    select_column_section design_load p = "C120x50x20x2.5" ∨
    select_column_section design_load p = "C140x50x20x3.0" ∨
    select_column_section design_load p = "□100x100x3.5" := by
  unfold select_column_section
  rw [scanSections_eval]
  split_ifs <;> simp

/-- Claim C9: select_column_section always returns a key of the
STEEL_SECTIONS catalog, so the catalog lookup in calculate_steel_usage
succeeds on its result. -/
theorem C9_select_returns_catalog_key (design_load : ℝ) (p : Params) :
    (STEEL_SECTIONS.lookup (select_column_section design_load p)).isSome = true := by
  rcases select_column_section_cases design_load p with h | h | h | h | h <;> rw [h] <;> rfl

/-- Claim C10: select_column_section never returns the catalog entry
□60x60x2.5. -/
theorem C10_never_selects_square60 (design_load : ℝ) (p : Params) :
    select_column_section design_load p ≠ "□60x60x2.5" := by
  rcases select_column_section_cases design_load p with h | h | h | h | h <;> rw [h] <;> decide

/-- A geometry with a single column: span 1 m, spacing 2 m, a single row. -/
def cexParams : Params :=
  { defaultParams with span_length := 1, column_spacing := 2, num_rows := 1 }

/-- cexParams yields exactly one column. -/
theorem total_columns_cexParams : total_columns cexParams = 1 := by
  unfold total_columns cexParams defaultParams
  norm_num
  rw [Int.ceil_eq_iff] <;> norm_num

/-- Required area for a 220 kN design load on the single-column geometry:
220 × 1000 / (235/1.5) / 100 = 660/47 ≈ 14.04 cm². -/
theorem requiredAreaCm2_cex : requiredAreaCm2 220 cexParams = 660 / 47 := by
  unfold requiredAreaCm2
  rw [total_columns_cexParams]
  norm_num

/-- Claim C2, code bug: at design_load = 220 kN on a single-column
geometry the required area ≈ 14.04 cm² lies strictly between the areas
13.20 cm² (□100x100x3.5) and 18.18 cm² (□120x120x4.0), yet the scan
raises IndexError on the square-tube entries (`props[4]` out of range) and
the except path returns □100x100x3.5 — a section smaller than required —
instead of a satisfying catalog section. -/
theorem C2_select_underselects_at_220 :
    select_column_section 220 cexParams = "□100x100x3.5" ∧
    (13.20 : ℝ) < requiredAreaCm2 220 cexParams ∧
    requiredAreaCm2 220 cexParams ≤ 18.18 := by
  refine ⟨?_, ?_, ?_⟩
  · unfold select_column_section
    rw [scanSections_eval, requiredAreaCm2_cex]
    rw [if_neg (by norm_num), if_neg (by norm_num), if_neg (by norm_num),
        if_neg (by norm_num)]
  · rw [requiredAreaCm2_cex]
    norm_num
  · rw [requiredAreaCm2_cex]
    norm_num

/-- Claim C8: on the stated domain (tilt in [0, 90], positive dimensions,
weight and counts), the wind, snow and dead loads are all non-negative. -/
theorem C8_loads_nonneg (p : Params)
    (ht0 : 0 ≤ p.tilt_angle) (ht90 : p.tilt_angle ≤ 90)
    (hl : 0 < p.pv_length) (hw : 0 < p.pv_width) (hwt : 0 < p.pv_weight)
    (hpr : 0 < p.pv_per_row) (hnr : 0 < p.num_rows) :
    0 ≤ calculate_wind_load p ∧ 0 ≤ calculate_snow_load p ∧
      0 ≤ calculate_dead_load p := by
  refine ⟨abs_nonneg _, ?_, ?_⟩
  · unfold calculate_snow_load
    have hS0 : (0 : ℝ) ≤ ((CITY_LOAD_DATA p.location).2 : ℝ) := by
      exact_mod_cast (CITY_LOAD_DATA_nonneg p.location).2
    have hmr : (0 : ℝ) ≤ ((mu_r p.tilt_angle : ℚ) : ℝ) := by
      exact_mod_cast mu_r_nonneg p.tilt_angle
    have ht0R : (0 : ℝ) ≤ (p.tilt_angle : ℝ) := by exact_mod_cast ht0
    have ht90R : (p.tilt_angle : ℝ) ≤ 90 := by exact_mod_cast ht90
    have hcos : 0 ≤ Real.cos ((p.tilt_angle : ℝ) * π / 180) := by
      apply Real.cos_nonneg_of_mem_Icc
      rw [Set.mem_Icc]
      constructor
      · nlinarith [Real.pi_pos]
      · nlinarith [Real.pi_pos,
          mul_nonneg (sub_nonneg.mpr ht90R) Real.pi_pos.le]
    have hprR : (0 : ℝ) ≤ (p.pv_per_row : ℝ) := by exact_mod_cast hpr.le
    have hnrR : (0 : ℝ) ≤ (p.num_rows : ℝ) := by exact_mod_cast hnr.le
    have hlR : (0 : ℝ) ≤ (p.pv_length : ℝ) := by exact_mod_cast hl.le
    have hwR : (0 : ℝ) ≤ (p.pv_width : ℝ) := by exact_mod_cast hw.le
    have harea : (0 : ℝ) ≤ (p.pv_length : ℝ) * (p.pv_width : ℝ) *
        Real.cos ((p.tilt_angle : ℝ) * π / 180) :=
      mul_nonneg (mul_nonneg hlR hwR) hcos
    exact mul_nonneg (mul_nonneg (mul_nonneg (mul_nonneg hmr hS0) harea) hprR) hnrR
  · unfold calculate_dead_load
    have h1 : 0 ≤ p.pv_weight * (p.pv_per_row : ℚ) * (p.num_rows : ℚ) :=
      mul_nonneg (mul_nonneg hwt.le (by exact_mod_cast hpr.le)) (by exact_mod_cast hnr.le)
    nlinarith

/-- Witness for C8 at the default ParameterRecord. -/
theorem C8_witness :
    0 ≤ calculate_wind_load defaultParams ∧
      0 ≤ calculate_snow_load defaultParams ∧
      0 ≤ calculate_dead_load defaultParams :=
  C8_loads_nonneg defaultParams (by norm_num [defaultParams]) (by norm_num [defaultParams])
    (by norm_num [defaultParams]) (by norm_num [defaultParams]) (by norm_num [defaultParams])
    (by norm_num [defaultParams]) (by norm_num [defaultParams])

/-! ### The default end-to-end scenario (main() with every default) -/

/-- Load-combination tuple produced by main() on the default inputs. -/
noncomputable def defaultResult : ℝ × ℝ × ℝ × ℝ :=
  calculate_combined_load ((calculate_dead_load defaultParams : ℚ) : ℝ)
    (calculate_wind_load defaultParams) (calculate_snow_load defaultParams)

/-- Column section selected by main() on the default inputs. -/
noncomputable def defaultSection : String :=
  select_column_section defaultResult.1 defaultParams

/-- Steel-usage tuple produced by main() on the default inputs. -/
noncomputable def defaultSteel : ℝ × ℝ × ℝ × ℝ :=
  calculate_steel_usage defaultParams defaultSection

/-- Wind load on default inputs is exactly 68 kN (sin 30° = 1/2). -/
theorem calculate_wind_load_default : calculate_wind_load defaultParams = 68 := by
  have hrad : ((30 : ℚ) : ℝ) * π / 180 = π / 6 := by
    push_cast
    ring
  have hcity : CITY_LOAD_DATA "默认" = (0.40, 0.35) := by simp [CITY_LOAD_DATA]
  have hshape : WIND_SHAPE_COEFF "平顶" = (1.0 : ℚ) := by simp [WIND_SHAPE_COEFF]
  have hmz : mu_z 3 = 1 := by norm_num [mu_z]
  unfold calculate_wind_load
  simp only [defaultParams]
  rw [hrad, Real.sin_pi_div_six, hcity, hshape, hmz]
  rw [abs_of_nonneg (by norm_num)]
  norm_num

/-- Snow load on default inputs is exactly 47.6·√3 kN (cos 30° = √3/2,
μr(30°) = 0.8). -/
theorem calculate_snow_load_default :
    calculate_snow_load defaultParams = 47.6 * Real.sqrt 3 := by
  have hrad : ((30 : ℚ) : ℝ) * π / 180 = π / 6 := by
    push_cast
    ring
  have hcity : CITY_LOAD_DATA "默认" = (0.40, 0.35) := by simp [CITY_LOAD_DATA]
  have hmr : mu_r 30 = 0.8 := by norm_num [mu_r]
  unfold calculate_snow_load
  simp only [defaultParams]
  rw [hrad, Real.cos_pi_div_six, hcity, hmr]
  push_cast
  ring

/-- Dead load on default inputs is exactly 50.96 kN. -/
theorem calculate_dead_load_default : calculate_dead_load defaultParams = 50.96 := by
  unfold calculate_dead_load
  simp only [defaultParams]
  norm_num

/-- The default inputs give 4 columns per row × 20 rows = 80 columns. -/
theorem total_columns_default : total_columns defaultParams = 80 := by
  unfold total_columns defaultParams
  norm_num

/-- Exact closed form of the default load-combination tuple. -/
theorem defaultResult_eq :
    defaultResult = (146.832 + 59.976 * Real.sqrt 3, 156.352,
      61.152 + 66.64 * Real.sqrt 3, 146.832 + 59.976 * Real.sqrt 3) := by
  obtain ⟨hs3l, hs3u⟩ := sqrt3_bounds
  have hsq : 0 ≤ Real.sqrt 3 := Real.sqrt_nonneg 3
  have hdR : ((calculate_dead_load defaultParams : ℚ) : ℝ) = 50.96 := by
    rw [calculate_dead_load_default]
    norm_num
  unfold defaultResult
  rw [hdR, calculate_wind_load_default, calculate_snow_load_default]
  unfold calculate_combined_load
  simp only []
  rw [show (1.2 * (50.96 : ℝ) + 1.4 * 68) = 156.352 by norm_num,
      show (1.2 * (50.96 : ℝ) + 1.4 * (47.6 * Real.sqrt 3)) =
        61.152 + 66.64 * Real.sqrt 3 by ring,
      show (1.2 * (50.96 : ℝ) + 0.9 * 1.4 * (68 + 47.6 * Real.sqrt 3)) =
        146.832 + 59.976 * Real.sqrt 3 by ring]
  have hc23 : (61.152 : ℝ) + 66.64 * Real.sqrt 3 ≤ 146.832 + 59.976 * Real.sqrt 3 := by
    nlinarith
  have hc13 : (156.352 : ℝ) ≤ 146.832 + 59.976 * Real.sqrt 3 := by
    nlinarith
  rw [max_eq_right hc23, max_eq_right hc13]

/-- On the default inputs the scan accepts the very first catalog entry. -/
theorem defaultSection_eq : defaultSection = "C80x40x15x2.0" := by
  obtain ⟨hs3l, hs3u⟩ := sqrt3_bounds
  have hreq : requiredAreaCm2 defaultResult.1 defaultParams ≤ 4.24 := by
    unfold requiredAreaCm2
    rw [total_columns_default, defaultResult_eq]
    simp only []
    rw [if_neg (by norm_num)]
    rw [show ((146.832 + 59.976 * Real.sqrt 3) / ((80 : ℤ) : ℝ) * 1000 /
        ((235 : ℝ) / 1.5) / 100) = (146.832 + 59.976 * Real.sqrt 3) * 3 / 3760 by
      push_cast
      ring]
    nlinarith
  unfold defaultSection select_column_section
  rw [scanSections_eval, if_pos hreq]

/-- Exact closed form of the default steel-usage tuple. -/
theorem defaultSteel_eq :
    defaultSteel = (1763.785728, 958.5792, 575.14752, 230.059008) := by
  unfold defaultSteel calculate_steel_usage
  rw [defaultSection_eq]
  have hlk : (STEEL_SECTIONS.lookup "C80x40x15x2.0").bind (fun props => props.get? 4) =
      some 4.24 := rfl
  rw [hlk, total_columns_default]
  simp only [defaultParams, Prod.mk.injEq]
  norm_num

/-- Claim C3: on the default ParameterRecord the pipeline produces
wind ≈ 68.00 kN, snow ≈ 82.45 kN, dead ≈ 50.96 kN, combo1 ≈ 156.35 kN,
combo2 ≈ 176.58 kN, combo3 ≈ 250.71 kN, design ≈ 250.71 kN, 80 columns,
section C80x40x15x2.0, and steel masses ≈ 959.1 / 575.4 / 230.2 / 1764.7
kg, each numeric value within ±1% of the stated figure. -/
theorem C3_default_scenario :
    |calculate_wind_load defaultParams - 68| ≤ 0.01 * 68 ∧
    |calculate_snow_load defaultParams - 82.45| ≤ 0.01 * 82.45 ∧
    |((calculate_dead_load defaultParams : ℚ) : ℝ) - 50.96| ≤ 0.01 * 50.96 ∧
    |defaultResult.2.1 - 156.35| ≤ 0.01 * 156.35 ∧
    |defaultResult.2.2.1 - 176.58| ≤ 0.01 * 176.58 ∧
    |defaultResult.2.2.2 - 250.71| ≤ 0.01 * 250.71 ∧
    |defaultResult.1 - 250.71| ≤ 0.01 * 250.71 ∧
    total_columns defaultParams = 80 ∧
    defaultSection = "C80x40x15x2.0" ∧
    |defaultSteel.2.1 - 959.1| ≤ 0.01 * 959.1 ∧
    |defaultSteel.2.2.1 - 575.4| ≤ 0.01 * 575.4 ∧
    |defaultSteel.2.2.2 - 230.2| ≤ 0.01 * 230.2 ∧
    |defaultSteel.1 - 1764.7| ≤ 0.01 * 1764.7 := by
  obtain ⟨hs3l, hs3u⟩ := sqrt3_bounds
  have hdR : ((calculate_dead_load defaultParams : ℚ) : ℝ) = 50.96 := by
    rw [calculate_dead_load_default]
    norm_num
  refine ⟨?_, ?_, ?_, ?_, ?_, ?_, ?_, total_columns_default, defaultSection_eq,
    ?_, ?_, ?_, ?_⟩
  · rw [calculate_wind_load_default]
    norm_num
  · rw [calculate_snow_load_default, abs_le]
    constructor <;> nlinarith
  · rw [hdR]
    norm_num
  · rw [defaultResult_eq]
    rw [abs_le]
    constructor <;> norm_num
  · rw [defaultResult_eq]
    simp only []
    rw [abs_le]
    constructor <;> nlinarith
  · rw [defaultResult_eq]
    simp only []
    rw [abs_le]
    constructor <;> nlinarith
  · rw [defaultResult_eq]
    simp only []
    rw [abs_le]
    constructor <;> nlinarith
  · rw [defaultSteel_eq]
    rw [abs_le]
    constructor <;> norm_num
  · rw [defaultSteel_eq]
    rw [abs_le]
    constructor <;> norm_num
  · rw [defaultSteel_eq]
    rw [abs_le]
    constructor <;> norm_num
  · rw [defaultSteel_eq]
    rw [abs_le]
    constructor <;> norm_num

end PV
